import Mathlib

/-!
Shallow embedding of the web-compliance-tool rule engine
(`src/backend/src/analyzer.ts`, staged as `src/unnamed/part_005`) together
with the data model it consumes (`src/unnamed/part_001`, the playwright
cookie record, and the `RawScanData` shape of `src/unnamed/part_003`).

The TypeScript module exports `mapViolations(rawData, url)`, which evaluates
a fixed battery of compliance rules over cookies, script URLs and the parsed
HTML document and produces a scored `AnalysisResult`.  Library behaviour the
module relies on (the WHATWG `URL` constructor, JavaScript string methods,
the cheerio selector queries actually issued) is modelled explicitly below;
everything else is a direct transcription of the source.
-/

namespace WCT

/-! ### JavaScript string primitives -/

/-- Does `pat` occur as a contiguous sublist of `hay`? -/
def listInfixOf [BEq α] (pat : List α) : List α → Bool
  | [] => pat.isEmpty
  | c :: rest => pat.isPrefixOf (c :: rest) || listInfixOf pat rest

/-- JavaScript `haystack.includes(needle)`: substring containment. -/
def strContains (hay pat : String) : Bool :=
  listInfixOf pat.toList hay.toList

/-- JavaScript `s.startsWith(pat)` (also `s.indexOf(pat) === 0`). -/
def strStartsWith (s pat : String) : Bool :=
  pat.toList.isPrefixOf s.toList

/-- JavaScript `s.endsWith(pat)`. -/
def strEndsWith (s pat : String) : Bool :=
  pat.toList.isSuffixOf s.toList

/-- Replace the first occurrence of `pat` in a character list by `rep`;
the list is returned unchanged when `pat` does not occur. -/
def replaceFirstList (pat rep : List Char) : List Char → List Char
  | [] => []
  | c :: rest =>
    if pat.isPrefixOf (c :: rest) then rep ++ (c :: rest).drop pat.length
    else c :: replaceFirstList pat rep rest

/-- JavaScript `s.replace(pat, rep)` with a string pattern: only the first
occurrence is replaced (`'www.awww.b'.replace('www.', '')` drops the
leading `www.` only).  Used for `siteUrl.hostname.replace('www.', '')`. -/
def replaceFirst (s pat rep : String) : String :=
  String.mk (replaceFirstList pat.toList rep.toList s.toList)

/-- JavaScript `s.toLowerCase()` on the ASCII text the rules inspect. -/
def strToLower (s : String) : String :=
  String.mk (s.toList.map Char.toLower)

/-- JavaScript `s.substring(n)`. -/
def strDrop (s : String) (n : Nat) : String :=
  String.mk (s.toList.drop n)

/-- JavaScript `s.trim()` (as used on checkbox label text). -/
def strTrim (s : String) : String :=
  String.mk (((s.toList.dropWhile Char.isWhitespace).reverse.dropWhile
    Char.isWhitespace).reverse)

/-! ### The WHATWG `URL` constructor, as the analyzer uses it

`mapViolations` reads only `protocol` and `hostname` from `new URL(...)`
and relies on the constructor throwing on invalid input (`isThirdParty`
catches that exception), so the model must draw the parse/throw boundary
as the WHATWG URL parser does:

* input sanitisation: ASCII tab and newlines are removed wherever they
  appear, C0 controls and spaces are trimmed at both ends;
* the input must open with a scheme (an ASCII letter, then letters,
  digits, `+`, `-`, `.`) followed by `:`, else the constructor throws —
  this covers relative paths and protocol-relative `//…` references;
* a special scheme (`http`, `https`, `ws`, `wss`, `ftp`) then skips any
  run of slashes and backslashes (so `https:example.com` and
  `https:\\example.com` parse like `https://example.com`) and reads an
  authority, terminated by `/`, `?`, `#` or `\`: userinfo up to the last
  `@` is dropped, a bracketed IPv6 literal is kept whole, a port must be
  numeric and at most 65535, and the host must be non-empty and free of
  forbidden code points; the hostname is lower-cased;
* any other scheme followed by `//` reads an authority the same way
  (terminators `/`, `?`, `#`) but allows an empty host and keeps its
  case (an opaque host);
* any other scheme not followed by `//` yields an opaque-path URL:
  `data:…`, `blob:…`, `mailto:…` all parse fine, with hostname `""` —
  such srcs therefore reach `isThirdParty`'s comparisons, they are not
  caught.

Model restrictions, noted rather than modelled: IDNA/punycode and
percent-decoding of hosts (a host containing `%` or non-ASCII is kept or
refused verbatim where WHATWG would decode it), numeric IPv4-host
normalisation and its failure cases, and `file:`-specific host
handling. -/

structure URLParts where
  protocol : String
  hostname : String
deriving DecidableEq, Repr

/-- A character allowed in a URL scheme after the first letter. -/
def isSchemeChar (c : Char) : Bool :=
  c.isAlpha || c.isDigit || c == '+' || c == '-' || c == '.'

/-- ASCII tab or newline, removed from the input wherever it appears. -/
def isUrlTabOrNewline (c : Char) : Bool :=
  c == '\t' || c == '\n' || c == '\r'

/-- A C0 control or space, trimmed from both ends of the input. -/
def isC0OrSpace (c : Char) : Bool :=
  c.toNat ≤ 32

/-- The URL parser's input sanitisation. -/
def sanitizeUrlInput (s : List Char) : List Char :=
  ((((s.filter (fun c => !(isUrlTabOrNewline c))).dropWhile
      isC0OrSpace).reverse.dropWhile isC0OrSpace).reverse)

/-- Split `scheme:rest` into `(scheme, rest)` at the first `:`; `none`
when the input does not open with a scheme followed by `:`. -/
def splitScheme (acc : List Char) : List Char → Option (List Char × List Char)
  | [] => none
  | c :: rest =>
    if c == ':' then
      if acc.isEmpty then none else some (acc.reverse, rest)
    else if isSchemeChar c then splitScheme (c :: acc) rest
    else none

/-- The schemes whose URLs must carry a non-empty host (`file` is kept
out of scope, see the section comment). -/
def specialSchemes : List String := ["http", "https", "ws", "wss", "ftp"]

/-- Strip the userinfo: everything up to the last `@` of the authority. -/
def afterLastAt (authority : List Char) : List Char :=
  (authority.reverse.takeWhile (fun c => c != '@')).reverse

/-- Is a port string acceptable: all digits and at most 65535 (an empty
port, as in `https://h:/`, is accepted too)? -/
def validPort (port : List Char) : Bool :=
  port.all Char.isDigit &&
  (port.isEmpty || port.foldl (fun a c => 10 * a + (c.toNat - 48)) 0 ≤ 65535)

/-- Split `host[:port]` and validate the port, keeping a bracketed IPv6
literal whole; `none` models the throws: an unclosed bracket, trailing
junk after `]`, a non-numeric port, a port above 65535. -/
def splitHostPort (hostPort : List Char) : Option (List Char) :=
  if hostPort.head? == some '[' then
    let inside := (hostPort.drop 1).takeWhile (fun c => c != ']')
    match (hostPort.drop 1).dropWhile (fun c => c != ']') with
    | ']' :: tail =>
      match tail with
      | [] => some ('[' :: (inside ++ [']']))
      | ':' :: port =>
        if validPort port then some ('[' :: (inside ++ [']'])) else none
      | _ => none
    | _ => none
  else
    let host := hostPort.takeWhile (fun c => c != ':')
    match hostPort.dropWhile (fun c => c != ':') with
    | ':' :: port => if validPort port then some host else none
    | _ => some host

/-- The forbidden host code points (tab and newlines are already
stripped; `/`, `?`, `#`, `:`, `@` are structural and never reach a host):
any of these inside a host makes the constructor throw. -/
def isForbiddenHostChar (c : Char) : Bool :=
  c == '\x00' || c == ' ' || c == '#' || c == '/' || c == ':' || c == '<' ||
  c == '>' || c == '?' || c == '@' || c == '[' || c == '\\' || c == ']' ||
  c == '^' || c == '|'

/-- Domains (hosts of special schemes) additionally forbid C0 controls,
`%` and delete. -/
def isForbiddenDomainChar (c : Char) : Bool :=
  isForbiddenHostChar c || c.toNat < 32 || c == '%' || c.toNat == 127

/-- Is a parsed host acceptable under the given forbidden-character
class?  A bracketed IPv6 literal bypasses the character check. -/
def hostCharsOk (forbidden : Char → Bool) (host : List Char) : Bool :=
  host.head? == some '[' || host.all (fun c => !(forbidden c))

/-- Model of `new URL(s)` restricted to what the analyzer observes:
`some` with the protocol (lower-cased scheme plus `:`) and the hostname
where the constructor succeeds — hostname `""` for opaque-path URLs —
and `none` where it throws.  See the section comment for the boundary
and its restrictions. -/
def parseURL (s : String) : Option URLParts :=
  match splitScheme [] (sanitizeUrlInput s.toList) with
  | none => none
  | some (scheme, rest) =>
    match scheme with
    | [] => none
    | c0 :: _ =>
      if !c0.isAlpha then none
      else
        let schemeStr := strToLower (String.mk scheme)
        if specialSchemes.contains schemeStr then
          let afterSlashes := rest.dropWhile (fun c => c == '/' || c == '\\')
          let authority := afterSlashes.takeWhile
            (fun c => c != '/' && c != '?' && c != '#' && c != '\\')
          match splitHostPort (afterLastAt authority) with
          | none => none
          | some host =>
            if host.isEmpty then none
            else if !(hostCharsOk isForbiddenDomainChar host) then none
            else some { protocol := schemeStr ++ ":",
                        hostname := strToLower (String.mk host) }
        else
          match rest with
          | '/' :: '/' :: tail =>
            let authority := tail.takeWhile
              (fun c => c != '/' && c != '?' && c != '#')
            match splitHostPort (afterLastAt authority) with
            | none => none
            | some host =>
              if !(hostCharsOk isForbiddenHostChar host) then none
              else some { protocol := schemeStr ++ ":",
                          hostname := String.mk host }
          | _ => some { protocol := schemeStr ++ ":", hostname := "" }

/-! ### Data model (`src/unnamed/part_001` and `src/unnamed/part_003`) -/

/-- `Severity` of `types.ts`: `'Low' | 'Medium' | 'High' | 'Critical'`. -/
inductive Severity where
  | Low
  | Medium
  | High
  | Critical
deriving DecidableEq, Repr

/-- The `Violation` interface of `types.ts`.  `learnMoreUrl` is optional
there and never set by the analyzer. -/
structure Violation where
  id : String
  type : String
  category : String
  description : String
  recommendation : String
  severity : Severity
  element : String
  law : String
  learnMoreUrl : Option String := none
deriving DecidableEq, Repr

/-- The playwright `Cookie` record as the analyzer reads it: `expires` is
Unix seconds, `-1` for a session cookie; `sameSite` is the string
`"Strict"`, `"Lax"` or `"None"`, with `""` standing for an absent value
(JavaScript `undefined`, falsy exactly like the empty string in the
`c.sameSite || 'Unspecified'` coercion). -/
structure Cookie where
  name : String
  value : String
  domain : String
  expires : Int
  httpOnly : Bool
  secure : Bool
  sameSite : String
deriving DecidableEq, Repr

/-- A `<script src=…>` reference collected by the scanner. -/
structure Script where
  src : String
deriving DecidableEq, Repr

/-- `CookieInfo` of `types.ts` (the evidence echoed in the result). -/
structure CookieInfo where
  name : String
  value : String
  domain : String
  secure : Bool
  httpOnly : Bool
  sameSite : String
deriving DecidableEq, Repr

/-- `ScriptInfo` of `types.ts`. -/
structure ScriptInfo where
  src : String
  isThirdParty : Bool
deriving DecidableEq, Repr

/-! ### The parsed document

`mapViolations` loads the raw HTML with cheerio and issues a fixed set of
selector queries against it.  The document is modelled by what those
queries observe: the text of `body`, and one record per element carrying
the attributes and text the selectors inspect (`id`, `class`,
`aria-label`, `data-testid`, `name`, `type`, `checked`, `autocomplete`,
`action`, `href`, `src`, `rel`, its own text and its parent's text).
An attribute modelled as `Option String` distinguishes an absent attribute
(`undefined` in cheerio) from a present one. -/
structure DomElem where
  tag : String
  idAttr : String
  classAttr : String
  ariaLabel : String
  dataTestid : String
  nameAttr : String
  typeAttr : String
  checked : Bool
  autocomplete : Option String
  action : Option String
  href : Option String
  srcAttr : Option String
  relAttr : String
  text : String
  parentText : String
deriving DecidableEq, Repr

/-- The cheerio document: `$('body').text()` plus the element list in
document order. -/
structure Doc where
  bodyText : String
  elems : List DomElem
deriving DecidableEq, Repr

/-- `RawScanData` of `scanner.ts`, with the HTML already in parsed form
(the analyzer's first step, `cheerio.load(html)`, is the passage from the
raw markup to this queryable view). -/
structure RawScanData where
  cookies : List Cookie
  scripts : List Script
  html : Doc
deriving DecidableEq, Repr

/-- The `AnalysisResult` interface of `types.ts`. -/
structure AnalysisResult where
  url : String
  scanDate : String
  cookies : List CookieInfo
  scripts : List ScriptInfo
  violations : List Violation
  hasConsentBanner : Bool
  score : Int
deriving DecidableEq, Repr

/-! ### The analyzer (`src/unnamed/part_005`) -/

/-- `isThirdParty` of the analyzer: parse the script URL, compare its
hostname against the site's own domain; only a throwing constructor (the
`catch` branch) makes a script first-party by default.  An opaque-path
URL such as `data:…` parses with hostname `""`, which fails both
comparisons against a non-empty `ownDomain`, so the source classifies it
third-party — the tracker rule can then fire on a substring match. -/
def isThirdParty (src : String) (ownDomain : String) : Bool :=
  match parseURL src with
  | none => false
  | some scriptUrl =>
    !(strEndsWith scriptUrl.hostname ownDomain) && scriptUrl.hostname != ownDomain

/-- The `knownTrackers` catalog, transcribed verbatim. -/
def knownTrackers : List String := [
  "google-analytics.com", "googletagmanager.com", "analytics.js", "ga.js", "gtag.js",
  "matomo.js", "piwik.js", "statcounter.com", "hotjar.com", "clarity.ms", "yandex.ru/metrika",
  "mixpanel.com", "segment.com", "amplitude.com",
  "doubleclick.net", "ads.google.com", "adservice.google.com", "criteo.net", "adnxs.com",
  "scorecardresearch.com", "quantserve.com", "rubiconproject.com", "taboola.com", "outbrain.com",
  "adsrvr.org", "hubspot.com", "marketo.net", "krxd.net", "dotomi.com", "pubmatic.com", "openx.net",
  "connect.facebook.net", "facebook.net/sdk.js", "platform.twitter.com", "static.licdn.com",
  "linkedin.com/px", "pinterest.com/pin.js", "tiktok.com", "snap.com",
  "googletagmanager.com/gtm.js", "launch.adobe.com", "ensighten.com", "tealiumiq.com",
  "fingerprintjs.com", "fingerprint.com",
  "youtube.com/embed", "player.vimeo.com"]

/-- The severity weight table of `calculateScore`. -/
def weights : Severity → Int
  | .Low => 2
  | .Medium => 5
  | .High => 10
  | .Critical => 20

/-- `calculateScore`: start at 100, subtract each violation's weight,
clamp at 0. -/
def calculateScore (violations : List Violation) : Int :=
  max 0 (violations.foldl (fun score v => score - weights v.severity) 100)

/-- `generateId`: the id the module-level counter produces when its value
is `n`.  The counter is reset to 0 at the start of each `mapViolations`
call and incremented once per emitted violation, so the `n`-th violation
pushed during a scan carries `generateId n`. -/
def generateId (n : Nat) : String :=
  "violation-" ++ toString n

/-- `13 * 30 * 24 * 60 * 60`, the retention ceiling of the expiry rule. -/
def thirteenMonthsInSeconds : Int := 13 * 30 * 24 * 60 * 60

/-- The violations the `cookies.map` body pushes for one cookie, in push
order (third-party, missing Secure, missing HttpOnly, SameSite=None
without Secure, excessive expiry).  `nowSec` stands for the scan-time
`Date.now() / 1000`.  Ids are assigned afterwards by position, exactly as
the shared counter does (see `generateId`), so here every record carries
the placeholder id `""`. -/
def cookieViolations (ownDomain : String) (nowSec : Int) (c : Cookie) : List Violation :=
  let cookieDomain := if strStartsWith c.domain "." then strDrop c.domain 1 else c.domain
  let isThirdPartyCookie := !(strEndsWith cookieDomain ownDomain)
  (if isThirdPartyCookie then
    [{ id := "", type := "Third-Party Cookie Set", category := "Tracking & Consent",
       description := "A third-party cookie '" ++ c.name ++ "' from the domain '" ++ c.domain
         ++ "' was set. Third-party cookies often track users across different websites and require explicit consent.",
       recommendation := "Audit all third-party cookies. Ensure they are not set before the user gives explicit, informed consent for tracking purposes.",
       severity := .High, element := c.name ++ " (" ++ c.domain ++ ")",
       law := "ePrivacy Directive, GDPR Article 6" }]
  else []) ++
  (if !c.secure then
    [{ id := "", type := "Insecure Cookie Transmission", category := "Data Security",
       description := "The cookie '" ++ c.name ++ "' is not using the 'Secure' flag, meaning it can be transmitted over unencrypted connections.",
       recommendation := "Ensure all cookies are transmitted only over HTTPS by adding the 'Secure' flag.",
       severity := .High, element := c.name, law := "GDPR Article 32" }]
  else []) ++
  (if !c.httpOnly && !(strStartsWith c.name "__utm") && !(strStartsWith c.name "_ga") then
    [{ id := "", type := "Cookie Accessible to Client-Side Scripts", category := "Data Security",
       description := "The cookie '" ++ c.name ++ "' is missing the 'HttpOnly' flag, making it accessible to client-side scripts and vulnerable to XSS attacks.",
       recommendation := "Set the 'HttpOnly' flag on cookies that do not need to be accessed by JavaScript unless absolutely necessary.",
       severity := .Medium, element := c.name, law := "ePrivacy Directive" }]
  else []) ++
  (if c.sameSite == "None" && !c.secure then
    [{ id := "", type := "Insecure SameSite=None Cookie", category := "Data Security",
       description := "The cookie '" ++ c.name ++ "' is set with 'SameSite=None' but is not marked 'Secure'. Modern browsers require 'SameSite=None' cookies to also be 'Secure'.",
       recommendation := "Add the 'Secure' flag to any cookie that uses 'SameSite=None'.",
       severity := .High, element := c.name, law := "Browser Security Policy" }]
  else []) ++
  (if c.expires != -1 && c.expires > nowSec + thirteenMonthsInSeconds then
    [{ id := "", type := "Excessive Cookie Expiration Date", category := "Data Minimization",
       description := "The cookie '" ++ c.name ++ "' has an expiration date set for more than 13 months in the future, which may not comply with data retention guidelines.",
       recommendation := "Review the purpose of this cookie and set a shorter, more appropriate expiration date (typically 12 months or less).",
       severity := .Low, element := c.name, law := "GDPR Article 5(1)(e)" }]
  else [])

/-- The `CookieInfo` record the `cookies.map` body returns for one cookie;
`c.sameSite || 'Unspecified'` maps an absent (falsy) value to
`"Unspecified"`. -/
def mapCookie (c : Cookie) : CookieInfo :=
  { name := c.name, value := c.value, domain := c.domain, secure := c.secure,
    httpOnly := c.httpOnly,
    sameSite := if c.sameSite == "" then "Unspecified" else c.sameSite }

/-- The violations the `scripts.map` body pushes for one script, in push
order (known tracker / fingerprinting, Google Fonts, ReCAPTCHA). -/
def scriptViolations (ownDomain : String) (s : Script) : List Violation :=
  let isThirdPartyScript := isThirdParty s.src ownDomain
  (if isThirdPartyScript && knownTrackers.any (fun tracker => strContains s.src tracker) then
    let trackerDomain := ((parseURL s.src).map URLParts.hostname).getD ""
    let violationType := if strContains s.src "fingerprint"
      then "Device Fingerprinting Script Detected" else "Third-Party Tracking Script Detected"
    let description := if strContains s.src "fingerprint"
      then "The script from '" ++ trackerDomain ++ "' appears to be a device fingerprinting script, a highly invasive tracking technique."
      else "The script from '" ++ trackerDomain ++ "' appears to be a tracking/analytics script. This requires explicit user consent before loading."
    [{ id := "", type := violationType, category := "Tracking & Consent",
       description := description,
       recommendation := "Implement a Consent Management Platform (CMP) to block this script from loading until the user provides specific, informed consent.",
       severity := .Critical, element := s.src, law := "GDPR Article 6, ePrivacy Directive" }]
  else []) ++
  (if strContains s.src "fonts.googleapis.com" then
    [{ id := "", type := "Third-Party Fonts Loaded", category := "Data Transfer",
       description := "Google Fonts are loaded from a third-party server, which may transfer user IP addresses to Google. This has been scrutinized under GDPR.",
       recommendation := "Consider self-hosting the fonts to avoid sending user data to third parties.",
       severity := .Low, element := s.src, law := "GDPR Chapter V" }]
  else []) ++
  (if strContains s.src "google.com/recaptcha" then
    [{ id := "", type := "Google ReCAPTCHA Implementation", category := "Data Transfer",
       description := "Google ReCAPTCHA is implemented, which transfers significant user data to Google for analysis and may be subject to data transfer regulations.",
       recommendation := "Ensure your privacy policy clearly discloses the use of ReCAPTCHA and the associated data transfer to Google. Consider privacy-focused alternatives.",
       severity := .Medium, element := s.src, law := "GDPR Chapter V, Article 13" }]
  else [])

/-- The `ScriptInfo` record the `scripts.map` body returns. -/
def mapScript (ownDomain : String) (s : Script) : ScriptInfo :=
  { src := s.src, isThirdParty := isThirdParty s.src ownDomain }

/-! ### Document rules -/

/-- The selector `[id*="consent"], [class*="cookie"], [aria-label*="cookie"],
[data-testid*="consent"]`: does one element match it? -/
def consentSelectorMatch (e : DomElem) : Bool :=
  strContains e.idAttr "consent" || strContains e.classAttr "cookie" ||
  strContains e.ariaLabel "cookie" || strContains e.dataTestid "consent"

/-- The elements the consent-banner selector matches, in document order. -/
def consentBannerElems (d : Doc) : List DomElem :=
  d.elems.filter consentSelectorMatch

/-- `a:contains("pat")` for one pattern: the anchors whose text contains
`pat` (cheerio `:contains` is case-sensitive substring matching). -/
def anchorsContaining (d : Doc) (pat : String) : List DomElem :=
  d.elems.filter (fun e => e.tag == "a" && strContains e.text pat)

/-- Does some anchor of the document match one of the `:contains` patterns
of a comma-separated anchor selector? -/
def hasAnchorContaining (d : Doc) (pats : List String) : Bool :=
  pats.any (fun pat => !(anchorsContaining d pat).isEmpty)

/-- The consent-banner section: no match on the consent selector is a
critical violation; with a match, a banner text carrying none of the
granular-control keywords is a high violation. -/
def consentViolations (d : Doc) : List Violation :=
  let consentBanner := consentBannerElems d
  if consentBanner.isEmpty then
    [{ id := "", type := "No Consent Banner Detected", category := "Consent & Transparency",
       description := "The scanner could not find a clear cookie consent banner or pop-up on the page.",
       recommendation := "Implement a compliant consent banner that allows users to accept, reject, and manage their cookie preferences before any non-essential cookies are set.",
       severity := .Critical, element := "<body>", law := "GDPR Article 7, ePrivacy Directive" }]
  else
    let bannerText := strToLower (String.join (consentBanner.map DomElem.text))
    if !(strContains bannerText "setting") && !(strContains bannerText "manage") &&
       !(strContains bannerText "preference") && !(strContains bannerText "reject") then
      [{ id := "", type := "Lack of Granular Consent Control", category := "Consent & Transparency",
         description := "The consent banner does not appear to offer granular controls (e.g., \"Settings\", \"Reject\"). A simple \"Accept\" button is not sufficient for GDPR.",
         recommendation := "Update the consent banner to provide clear options to reject non-essential cookies and manage preferences in detail.",
         severity := .High, element := "Consent Banner", law := "GDPR Article 7" }]
    else []

/-- The `input[type="checkbox"][checked]` loop: a pre-ticked box whose
surrounding (parent) text mentions consent, agreement or a newsletter. -/
def checkboxViolations (d : Doc) : List Violation :=
  (d.elems.filter (fun e => e.tag == "input" && e.typeAttr == "checkbox" && e.checked)).flatMap
    (fun e =>
      let textAround := strToLower e.parentText
      if strContains textAround "consent" || strContains textAround "agree" ||
         strContains textAround "newsletter" then
        [{ id := "", type := "Pre-ticked Consent Box", category := "Consent & Transparency",
           description := "A checkbox related to consent or marketing was found to be pre-ticked, which is not a valid form of affirmative consent.",
           recommendation := "Ensure all consent checkboxes are unchecked by default, requiring an explicit action from the user.",
           severity := .High,
           element := "Checkbox with label: \"" ++ strTrim e.parentText ++ "\"",
           law := "GDPR Article 4(11)" }]
      else [])

/-- `bodyText.match(/by using this site|by continuing to use/i)`. -/
def impliedConsentViolations (d : Doc) : List Violation :=
  if strContains (strToLower d.bodyText) "by using this site" ||
     strContains (strToLower d.bodyText) "by continuing to use" then
    [{ id := "", type := "Vague or Implied Consent Language", category := "Consent & Transparency",
       description := "The site contains language like \"By using this site, you accept cookies,\" which is not considered valid, explicit consent under GDPR.",
       recommendation := "Remove implied consent language and rely on a consent banner with clear accept/reject actions.",
       severity := .Medium, element := "Body text", law := "GDPR Article 7" }]
  else []

/-- `a:contains("Privacy Policy"), a:contains("privacy policy"),
a:contains("Privacy")` empty. -/
def privacyLinkViolations (d : Doc) : List Violation :=
  if !(hasAnchorContaining d ["Privacy Policy", "privacy policy", "Privacy"]) then
    [{ id := "", type := "Privacy Policy Link Missing", category := "Consent & Transparency",
       description := "A clear and accessible link to the Privacy Policy was not found on the page.",
       recommendation := "Add a conspicuous link to your Privacy Policy in the website's footer.",
       severity := .High, element := "<footer>", law := "GDPR Article 13, CCPA Section 1798.130" }]
  else []

/-- `a:contains("Cookie Policy"), a:contains("cookie policy"),
a:contains("Cookie Settings")` empty. -/
def cookiePolicyLinkViolations (d : Doc) : List Violation :=
  if !(hasAnchorContaining d ["Cookie Policy", "cookie policy", "Cookie Settings"]) then
    [{ id := "", type := "Cookie Policy or Settings Link Missing", category := "Consent & Transparency",
       description := "A link to a detailed cookie policy or a settings panel for managing consent was not found.",
       recommendation := "Provide a link in the footer to a page explaining the cookies used and for managing preferences.",
       severity := .Medium, element := "<footer>", law := "ePrivacy Directive" }]
  else []

/-- `a:contains("Do Not Sell"), a:contains("Do not sell"),
a:contains("Do Not Share")` empty. -/
def doNotSellLinkViolations (d : Doc) : List Violation :=
  if !(hasAnchorContaining d ["Do Not Sell", "Do not sell", "Do Not Share"]) then
    [{ id := "", type := "CCPA: 'Do Not Sell or Share' Link Missing", category := "User Rights",
       description := "A \"Do Not Sell or Share My Personal Information\" link, required under CCPA/CPRA, is missing.",
       recommendation := "Add a 'Do Not Sell or Share My Personal Information' link to the website footer.",
       severity := .High, element := "<footer>", law := "CCPA Section 1798.135" }]
  else []

/-- `a:contains("Limit the Use of My Sensitive Personal Information")`
empty. -/
def limitUseLinkViolations (d : Doc) : List Violation :=
  if !(hasAnchorContaining d ["Limit the Use of My Sensitive Personal Information"]) then
    [{ id := "", type := "CPRA: 'Limit Use of Sensitive Information' Link Missing", category := "User Rights",
       description := "A \"Limit the Use of My Sensitive Personal Information\" link, required under CPRA for businesses that collect sensitive data, is missing.",
       recommendation := "If you collect sensitive personal information, add this link to your website footer.",
       severity := .High, element := "<footer>", law := "CPRA Section 1798.121" }]
  else []

/-- No DSAR anchor and no `data subject access request` body text. -/
def dsarViolations (d : Doc) : List Violation :=
  if !(hasAnchorContaining d ["Data Subject Request", "Access My Data"]) &&
     !(strContains d.bodyText "data subject access request") then
    [{ id := "", type := "No Clear Mechanism for Data Subject Rights (DSAR)", category := "User Rights",
       description := "No clear link or form was found for users to exercise their data subject rights (e.g., access, deletion).",
       recommendation := "Provide a clear and accessible way for users to submit DSARs, such as a dedicated page linked from the privacy policy or footer.",
       severity := .High, element := "<footer>", law := "GDPR Chapter 3" }]
  else []

/-- The `$('form')` loop: a form action starting with `http://` (the
source tests `action.indexOf('http://') === 0` after a truthiness check).
-/
def formViolations (d : Doc) : List Violation :=
  (d.elems.filter (fun e => e.tag == "form")).flatMap (fun e =>
    match e.action with
    | some action =>
      if strStartsWith action "http://" then
        [{ id := "", type := "Insecure Form Submission", category := "Data Security",
           description := "A form was found that submits data to a non-HTTPS (http://) endpoint, which is insecure.",
           recommendation := "Ensure all form actions use HTTPS to encrypt user data in transit.",
           severity := .Critical, element := "<form action=\"" ++ action ++ "\">",
           law := "GDPR Article 32" }]
      else []
    | none => [])

/-- Does an input's `name` match
`input[name*="passw"], input[name*="card"], input[name*="credit"], input[name="cvv"]`? -/
def sensitiveNameMatch (e : DomElem) : Bool :=
  e.tag == "input" &&
  (strContains e.nameAttr "passw" || strContains e.nameAttr "card" ||
   strContains e.nameAttr "credit" || e.nameAttr == "cvv")

/-- The sensitive-field loop: such an input whose `autocomplete` attribute
is not the string `off` (an absent attribute also fires). -/
def sensitiveFieldViolations (d : Doc) : List Violation :=
  (d.elems.filter sensitiveNameMatch).flatMap (fun e =>
    if e.autocomplete != some "off" then
      [{ id := "", type := "Autocomplete Enabled on Sensitive Field", category := "Data Security",
         description := "A form field with a sensitive name ('" ++ e.nameAttr ++ "') does not have autocomplete disabled. This can pose a security risk in shared environments.",
         recommendation := "Add the 'autocomplete=\"off\"' attribute to sensitive input fields like passwords and credit card numbers.",
         severity := .Low, element := "input[name=\"" ++ e.nameAttr ++ "\"]",
         law := "General Security Best Practice" }]
    else [])

/-- The `$('a[href^="mailto:"]')` loop; the element field falls back to
`mailto link` when the (matched, hence never absent) attribute is falsy. -/
def mailtoViolations (d : Doc) : List Violation :=
  (d.elems.filter (fun e => e.tag == "a" &&
      (match e.href with | some h => strStartsWith h "mailto:" | none => false))).flatMap
    (fun e =>
      let href := (e.href.getD "")
      [{ id := "", type := "Plaintext Email Address Found", category := "Data Security",
         description := "An email address (" ++ href ++ ") was found directly in the HTML, making it vulnerable to harvesting by spam bots.",
         recommendation := "Obfuscate email addresses using JavaScript or use a contact form instead.",
         severity := .Low, element := if href == "" then "mailto link" else href,
         law := "General Security Best Practice" }])

/-- JavaScript `a || b` over possibly-absent strings: an absent or empty
left operand yields the right one. -/
def jsOr (a b : Option String) : Option String :=
  match a with
  | some s => if s == "" then b else some s
  | none => b

/-- Does an element match `img, script, link[rel="stylesheet"]`? -/
def mixedContentSelector (e : DomElem) : Bool :=
  e.tag == "img" || e.tag == "script" || (e.tag == "link" && e.relAttr == "stylesheet")

/-- The mixed-content loop, run only on an HTTPS page: `src` falling back
to `href`, flagged when it starts with `http://`. -/
def mixedContentViolations (d : Doc) : List Violation :=
  (d.elems.filter mixedContentSelector).flatMap (fun e =>
    match jsOr e.srcAttr e.href with
    | some src =>
      if strStartsWith src "http://" then
        [{ id := "", type := "Mixed Content - Insecure Asset Loaded", category := "Data Security",
           description := "An insecure asset (" ++ src ++ ") is being loaded on a secure (HTTPS) page. This can compromise the security of the entire page.",
           recommendation := "Ensure all assets (images, scripts, stylesheets) are loaded over HTTPS.",
           severity := .Medium, element := src, law := "General Security Best Practice" }]
      else []
    | none => [])

/-- The HTML-content section of `mapViolations`, in source order. -/
def documentViolations (d : Doc) (siteProtocol : String) : List Violation :=
  consentViolations d ++ checkboxViolations d ++ impliedConsentViolations d ++
  privacyLinkViolations d ++ cookiePolicyLinkViolations d ++ doNotSellLinkViolations d ++
  limitUseLinkViolations d ++ dsarViolations d ++ formViolations d ++
  sensitiveFieldViolations d ++ mailtoViolations d ++
  (if siteProtocol == "https:" then mixedContentViolations d else [])

/-! ### Assembling the result -/

/-- Number the violations in push order: the violation at position `i` of
the scan's list receives `generateId (n + i)`.  `mapViolations` resets the
counter to 0, so it uses `assignIdsFrom 0`. -/
def assignIdsFrom (n : Nat) : List Violation → List Violation
  | [] => []
  | v :: rest => { v with id := generateId n } :: assignIdsFrom (n + 1) rest

/-- The full violation sequence of one scan before ids are assigned:
the cookie family (one block per cookie, in cookie order), then the script
family (one block per script, in script order), then the document rules in
their fixed order — exactly the order the source pushes them. -/
def scanViolations (rawData : RawScanData) (siteUrl : URLParts) (nowSec : Int) :
    List Violation :=
  let ownDomain := replaceFirst siteUrl.hostname "www." ""
  (rawData.cookies.flatMap (cookieViolations ownDomain nowSec)) ++
  (rawData.scripts.flatMap (scriptViolations ownDomain)) ++
  documentViolations rawData.html siteUrl.protocol

/-- `mapViolations(rawData, url)`.  `nowSec` is the scan-time
`Date.now() / 1000` read by the expiry rule and `scanDate` the
`new Date().toISOString()` timestamp; both are ambient clock reads in the
source and explicit arguments here.  `none` models the exception
`new URL(url)` raises on an invalid site URL. -/
def mapViolations (rawData : RawScanData) (url : String) (nowSec : Int)
    (scanDate : String) : Option AnalysisResult :=
  match parseURL url with
  | none => none
  | some siteUrl =>
    let ownDomain := replaceFirst siteUrl.hostname "www." ""
    let violations := assignIdsFrom 0 (scanViolations rawData siteUrl nowSec)
    some { url := url, scanDate := scanDate,
           cookies := rawData.cookies.map mapCookie,
           scripts := rawData.scripts.map (mapScript ownDomain),
           violations := violations,
           hasConsentBanner := !(consentBannerElems rawData.html).isEmpty,
           score := calculateScore violations }

/-! ### Concrete fixtures used by witnesses and counterexamples -/

/-- An element with every attribute absent or empty. -/
def blankElem : DomElem :=
  { tag := "", idAttr := "", classAttr := "", ariaLabel := "", dataTestid := "",
    nameAttr := "", typeAttr := "", checked := false, autocomplete := none,
    action := none, href := none, srcAttr := none, relAttr := "",
    text := "", parentText := "" }

/-- An anchor element with the given text. -/
def anchor (t : String) : DomElem :=
  { blankElem with tag := "a", text := t }

/-- A document with nothing in it at all. -/
def emptyDoc : Doc := { bodyText := "", elems := [] }

/-- The spec's example scenario, completed so that no rule beyond the four
named ones can fire: a document with no consent-related element but with
every footer link the document rules look for. -/
def scenDoc : Doc :=
  { bodyText := "",
    elems := [anchor "Privacy Policy", anchor "Cookie Policy", anchor "Do Not Sell",
              anchor "Limit the Use of My Sensitive Personal Information",
              anchor "Data Subject Request"] }

/-- The example scenario's third-party cookie from `tracker.example` with
`secure=false` (HttpOnly set, `SameSite=Lax`, session expiry, so that no
further cookie rule fires). -/
def trackerCookie : Cookie :=
  { name := "track_id", value := "abc", domain := "tracker.example", expires := -1,
    httpOnly := true, secure := false, sameSite := "Lax" }

/-- The example scenario's Google Analytics script. -/
def gaScript : Script :=
  { src := "https://www.google-analytics.com/analytics.js" }

/-- The example scenario's raw scan data. -/
def scenRaw : RawScanData :=
  { cookies := [trackerCookie], scripts := [gaScript], html := scenDoc }

/-- The example scenario of `mapViolations scenRaw "https://www.example.com" 0`,
unpacked (the `getD` default is never reached: the site URL parses). -/
def scenRes : AnalysisResult :=
  (mapViolations scenRaw "https://www.example.com" 0 "2024-01-01T00:00:00.000Z").getD
    { url := "", scanDate := "", cookies := [], scripts := [], violations := [],
      hasConsentBanner := false, score := 0 }

/-! ### Scoring lemmas -/

theorem foldl_sub_weights (vs : List Violation) (a : Int) :
    vs.foldl (fun score v => score - weights v.severity) a
      = a - (vs.map (fun v => weights v.severity)).sum := by
  induction vs generalizing a with
  | nil => simp
  | cons v rest ih => simp [ih]; ring

/-- `calculateScore` in closed form. -/
theorem calculateScore_eq (vs : List Violation) :
    calculateScore vs = max 0 (100 - (vs.map (fun v => weights v.severity)).sum) := by
  unfold calculateScore
  rw [foldl_sub_weights]

theorem weights_nonneg (s : Severity) : 0 ≤ weights s := by
  cases s <;> decide

theorem sum_weights_nonneg (vs : List Violation) :
    0 ≤ (vs.map (fun v => weights v.severity)).sum := by
  apply List.sum_nonneg
  intro x hx
  rcases List.mem_map.mp hx with ⟨v, -, rfl⟩
  exact weights_nonneg v.severity

theorem calculateScore_nonneg (vs : List Violation) : 0 ≤ calculateScore vs :=
  le_max_left 0 _

theorem calculateScore_le_100 (vs : List Violation) : calculateScore vs ≤ 100 := by
  rw [calculateScore_eq]
  have h := sum_weights_nonneg vs
  exact max_le (by norm_num) (by linarith)

/-! ### Id-assignment lemmas -/

theorem assignIdsFrom_map_id (n : Nat) (l : List Violation) :
    (assignIdsFrom n l).map Violation.id = (List.range' n l.length).map generateId := by
  induction l generalizing n with
  | nil => rfl
  | cons v rest ih => simp [assignIdsFrom, List.range'_succ, ih]

theorem assignIdsFrom_length (n : Nat) (l : List Violation) :
    (assignIdsFrom n l).length = l.length := by
  induction l generalizing n with
  | nil => rfl
  | cons v rest ih => simp [assignIdsFrom, ih]

/-- Assigning ids changes no field but `id`. -/
theorem mem_assignIdsFrom {v : Violation} {l : List Violation} (hv : v ∈ l) (n : Nat) :
    ∃ w ∈ assignIdsFrom n l, ∃ i, w = { v with id := generateId i } := by
  induction l generalizing n with
  | nil => cases hv
  | cons x rest ih =>
    rcases List.mem_cons.mp hv with h | h
    · exact ⟨{ x with id := generateId n }, List.mem_cons_self _ _, n, by rw [h]⟩
    · rcases ih h (n + 1) with ⟨w, hw, i, hwi⟩
      exact ⟨w, List.mem_cons_of_mem _ hw, i, hwi⟩

/-- Conversely, every violation of the id-assigned list comes from the
pre-id list, with only the id changed. -/
theorem of_mem_assignIdsFrom {w : Violation} {l : List Violation} {n : Nat}
    (hw : w ∈ assignIdsFrom n l) :
    ∃ v ∈ l, ∃ i, w = { v with id := generateId i } := by
  induction l generalizing n with
  | nil => cases hw
  | cons x rest ih =>
    rcases List.mem_cons.mp hw with h | h
    · exact ⟨x, List.mem_cons_self _ _, n, h⟩
    · rcases ih h with ⟨v, hv, i, hwi⟩
      exact ⟨v, List.mem_cons_of_mem _ hv, i, hwi⟩

/-- A count that ignores the id field is unchanged by id assignment. -/
theorem countP_assignIdsFrom (p : Violation → Bool)
    (hp : ∀ v s, p { v with id := s } = p v) (n : Nat) (l : List Violation) :
    (assignIdsFrom n l).countP p = l.countP p := by
  induction l generalizing n with
  | nil => rfl
  | cons v rest ih => simp [assignIdsFrom, List.countP_cons, ih, hp]

/-! ### Injectivity of the generated ids

`generateId n` renders the counter with `Nat.repr`; distinctness of the
ids needs `Nat.repr` to be injective, which is proved here through a
structural reformulation `natToChars` of core's fuel-based
`Nat.toDigitsCore` and a decimal decoding function. -/

/-- Decimal digits of `n`, most significant first (the fuel-free
counterpart of `Nat.toDigits 10`). -/
def natToChars (n : Nat) : List Char :=
  if n < 10 then [Nat.digitChar n]
  else natToChars (n / 10) ++ [Nat.digitChar (n % 10)]
decreasing_by exact Nat.div_lt_self (by omega) (by omega)

theorem toDigitsCore_eq_natToChars :
    ∀ (f n : Nat) (ds : List Char), n < f →
      Nat.toDigitsCore 10 f n ds = natToChars n ++ ds := by
  intro f
  induction f with
  | zero => omega
  | succ f ih =>
    intro n ds hn
    rw [Nat.toDigitsCore]
    by_cases h0 : n / 10 = 0
    · have hlt : n < 10 := by omega
      rw [natToChars]
      simp [h0, hlt, Nat.mod_eq_of_lt hlt]
    · have hib : n / 10 < f := by
        have h1 : n / 10 < n := Nat.div_lt_self (by omega) (by omega)
        omega
      have hge : ¬ n < 10 := by omega
      rw [natToChars]
      simp only [h0, if_false, hge, ih (n / 10) _ hib, List.append_assoc,
        List.singleton_append]

/-- The decimal value of a digit list, used to invert `natToChars`. -/
def digitsVal (l : List Char) : Nat :=
  l.foldl (fun a c => 10 * a + (c.toNat - 48)) 0

theorem digitChar_val {n : Nat} (h : n < 10) : (Nat.digitChar n).toNat - 48 = n := by
  interval_cases n <;> rfl

theorem digitsVal_natToChars : ∀ n, digitsVal (natToChars n) = n := by
  intro n
  induction n using Nat.strong_induction_on with
  | _ n ih =>
    rw [natToChars]
    by_cases h : n < 10
    · simp [h, digitsVal, digitChar_val h]
    · have hrec := ih (n / 10) (Nat.div_lt_self (by omega) (by omega))
      unfold digitsVal at hrec ⊢
      simp only [h, if_false, List.foldl_append, List.foldl_cons, List.foldl_nil]
      rw [hrec, digitChar_val (Nat.mod_lt n (by omega))]
      omega

theorem natToChars_injective : Function.Injective natToChars := by
  intro a b h
  have ha := digitsVal_natToChars a
  rw [h, digitsVal_natToChars] at ha
  omega

theorem natRepr_eq_natToChars (n : Nat) : Nat.repr n = (natToChars n).asString := by
  unfold Nat.repr Nat.toDigits
  rw [toDigitsCore_eq_natToChars (n + 1) n [] (by omega), List.append_nil]

theorem natRepr_injective : Function.Injective Nat.repr := by
  intro a b h
  rw [natRepr_eq_natToChars, natRepr_eq_natToChars] at h
  exact natToChars_injective (congrArg String.data h)

theorem generateId_injective : Function.Injective generateId := by
  intro a b h
  unfold generateId at h
  have hdata := congrArg String.data h
  simp only [String.data_append] at hdata
  have := List.append_cancel_left hdata
  exact natRepr_injective (congrArg String.mk this)

/-- The ids of one scan's violation list are pairwise distinct. -/
theorem nodup_assignIdsFrom_ids (n : Nat) (l : List Violation) :
    ((assignIdsFrom n l).map Violation.id).Nodup := by
  rw [assignIdsFrom_map_id]
  exact (List.nodup_range' _ _).map generateId_injective

/-! ### Shape of a successful scan -/

theorem mapViolations_eq_some {raw : RawScanData} {url : String} {now : Int}
    {date : String} {u : URLParts} (hu : parseURL url = some u) :
    mapViolations raw url now date = some
      { url := url, scanDate := date,
        cookies := raw.cookies.map mapCookie,
        scripts := raw.scripts.map (mapScript (replaceFirst u.hostname "www." "")),
        violations := assignIdsFrom 0 (scanViolations raw u now),
        hasConsentBanner := !(consentBannerElems raw.html).isEmpty,
        score := calculateScore (assignIdsFrom 0 (scanViolations raw u now)) } := by
  unfold mapViolations
  rw [hu]

theorem parseURL_of_mapViolations {raw : RawScanData} {url : String} {now : Int}
    {date : String} {res : AnalysisResult}
    (h : mapViolations raw url now date = some res) : ∃ u, parseURL url = some u := by
  unfold mapViolations at h
  cases hp : parseURL url with
  | none => rw [hp] at h; cases h
  | some u => exact ⟨u, rfl⟩

theorem res_violations_eq {raw : RawScanData} {url : String} {now : Int}
    {date : String} {res : AnalysisResult} {u : URLParts}
    (h : mapViolations raw url now date = some res) (hu : parseURL url = some u) :
    res.violations = assignIdsFrom 0 (scanViolations raw u now) := by
  rw [mapViolations_eq_some hu] at h
  obtain rfl := Option.some.inj h
  rfl

theorem res_score_eq {raw : RawScanData} {url : String} {now : Int}
    {date : String} {res : AnalysisResult}
    (h : mapViolations raw url now date = some res) :
    res.score = calculateScore res.violations := by
  obtain ⟨u, hu⟩ := parseURL_of_mapViolations h
  rw [mapViolations_eq_some hu] at h
  obtain rfl := Option.some.inj h
  rfl

/-- Every violation of the scan's pre-id list survives, fields intact, in
the result. -/
theorem mem_res_violations_of_mem_scan {raw : RawScanData} {url : String} {now : Int}
    {date : String} {res : AnalysisResult} {u : URLParts}
    (h : mapViolations raw url now date = some res) (hu : parseURL url = some u)
    {v : Violation} (hv : v ∈ scanViolations raw u now) :
    ∃ w ∈ res.violations, ∃ i, w = { v with id := generateId i } := by
  rw [res_violations_eq h hu]
  exact mem_assignIdsFrom hv 0

theorem mem_scan_of_mem_cookieViolations {raw : RawScanData} {u : URLParts} {now : Int}
    {c : Cookie} {v : Violation} (hc : c ∈ raw.cookies)
    (hv : v ∈ cookieViolations (replaceFirst u.hostname "www." "") now c) :
    v ∈ scanViolations raw u now := by
  unfold scanViolations
  exact List.mem_append_left _
    (List.mem_append_left _ (List.mem_flatMap.mpr ⟨c, hc, hv⟩))

theorem mem_scan_of_mem_scriptViolations {raw : RawScanData} {u : URLParts} {now : Int}
    {s : Script} {v : Violation} (hs : s ∈ raw.scripts)
    (hv : v ∈ scriptViolations (replaceFirst u.hostname "www." "") s) :
    v ∈ scanViolations raw u now := by
  unfold scanViolations
  exact List.mem_append_left _
    (List.mem_append_right _ (List.mem_flatMap.mpr ⟨s, hs, hv⟩))

theorem mem_scan_of_mem_documentViolations {raw : RawScanData} {u : URLParts} {now : Int}
    {v : Violation} (hv : v ∈ documentViolations raw.html u.protocol) :
    v ∈ scanViolations raw u now := by
  unfold scanViolations
  exact List.mem_append_right _ hv

/-! ### Per-rule lemmas -/

/-- The domain string the cookie rule compares: leading dot stripped. -/
def cookieDomainOf (c : Cookie) : String :=
  if strStartsWith c.domain "." then strDrop c.domain 1 else c.domain

theorem mem_cookieViolations_thirdParty (own : String) (now : Int) (c : Cookie)
    (hdom : strEndsWith (cookieDomainOf c) own = false) :
    ∃ v ∈ cookieViolations own now c,
      v.type = "Third-Party Cookie Set" ∧ v.severity = Severity.High ∧
      v.element = c.name ++ " (" ++ c.domain ++ ")" := by
  unfold cookieViolations
  unfold cookieDomainOf at hdom
  simp only [hdom, Bool.not_false, if_true]
  exact ⟨_, List.mem_append_left _ (List.mem_append_left _ (List.mem_append_left _
    (List.mem_append_left _ (List.mem_cons_self _ _)))), rfl, rfl, rfl⟩

theorem mem_cookieViolations_insecure (own : String) (now : Int) (c : Cookie)
    (hsec : c.secure = false) :
    ∃ v ∈ cookieViolations own now c,
      v.type = "Insecure Cookie Transmission" ∧ v.severity = Severity.High ∧
      v.element = c.name := by
  unfold cookieViolations
  simp only [hsec, Bool.not_false, if_true]
  exact ⟨_, List.mem_append_left _ (List.mem_append_left _ (List.mem_append_left _
    (List.mem_append_right _ (List.mem_cons_self _ _)))), rfl, rfl, rfl⟩

theorem mem_cookieViolations_sameSiteNone (own : String) (now : Int) (c : Cookie)
    (hsec : c.secure = false) (hss : c.sameSite = "None") :
    ∃ v ∈ cookieViolations own now c,
      v.type = "Insecure SameSite=None Cookie" ∧ v.severity = Severity.High ∧
      v.element = c.name := by
  unfold cookieViolations
  simp only [hsec, hss, Bool.not_false, Bool.and_true, if_true]
  exact ⟨_, List.mem_append_left _ (List.mem_append_right _ (List.mem_cons_self _ _)),
    rfl, rfl, rfl⟩

theorem mem_cookieViolations_httpOnly (own : String) (now : Int) (c : Cookie)
    (hhttp : c.httpOnly = false) (hutm : strStartsWith c.name "__utm" = false)
    (hga : strStartsWith c.name "_ga" = false) :
    ∃ v ∈ cookieViolations own now c,
      v.type = "Cookie Accessible to Client-Side Scripts" ∧
      v.severity = Severity.Medium ∧ v.element = c.name := by
  unfold cookieViolations
  simp only [hhttp, hutm, hga, Bool.not_false, Bool.and_true, if_true]
  exact ⟨_, List.mem_append_left _ (List.mem_append_left _ (List.mem_append_right _
    (List.mem_cons_self _ _))), rfl, rfl, rfl⟩

theorem isThirdParty_of_unparseable {src own : String} (h : parseURL src = none) :
    isThirdParty src own = false := by
  unfold isThirdParty
  rw [h]

theorem isThirdParty_of_suffix {src own : String} {u : URLParts}
    (h : parseURL src = some u) (hsuf : strEndsWith u.hostname own = true) :
    isThirdParty src own = false := by
  unfold isThirdParty
  rw [h]
  simp [hsuf]

/-- A script whose URL does not parse can only produce the two
substring-keyed violations (fonts, ReCAPTCHA). -/
theorem scriptViolations_unparseable_types (own : String) {s : Script}
    (h : parseURL s.src = none) :
    (scriptViolations own s).all (fun v =>
      v.type == "Third-Party Fonts Loaded" ||
      v.type == "Google ReCAPTCHA Implementation") = true := by
  have hTP : isThirdParty s.src own = false := isThirdParty_of_unparseable h
  unfold scriptViolations
  simp only [hTP, Bool.false_and]
  split_ifs <;> first | rfl | simp_all

/-- A script whose URL does not parse and whose src contains neither
tracked substring produces no violation at all. -/
theorem scriptViolations_unparseable_nil {own : String} {s : Script}
    (h : parseURL s.src = none)
    (hf : strContains s.src "fonts.googleapis.com" = false)
    (hr : strContains s.src "google.com/recaptcha" = false) :
    scriptViolations own s = [] := by
  have hTP : isThirdParty s.src own = false := isThirdParty_of_unparseable h
  unfold scriptViolations
  simp [hTP, hf, hr]

/-- A first-party-classified cookie (suffix match) is never flagged as a
third-party cookie. -/
theorem cookieViolations_suffix_no_thirdParty (own : String) (now : Int) {c : Cookie}
    (hdom : strEndsWith (cookieDomainOf c) own = true) :
    (cookieViolations own now c).all (fun v => v.type != "Third-Party Cookie Set") = true := by
  unfold cookieViolations
  unfold cookieDomainOf at hdom
  simp only [hdom, Bool.not_true, if_false]
  split_ifs <;> first | rfl | simp_all

/-- The analytics-prefix exemption: a cookie named `__utm…` or `_ga…` is
never flagged for a missing HttpOnly flag. -/
theorem cookieViolations_exempt_httpOnly (own : String) (now : Int) {c : Cookie}
    (hname : strStartsWith c.name "__utm" = true ∨ strStartsWith c.name "_ga" = true) :
    (cookieViolations own now c).all
      (fun v => v.type != "Cookie Accessible to Client-Side Scripts") = true := by
  unfold cookieViolations
  rcases hname with h | h <;>
    simp only [h, Bool.not_true, Bool.and_false, Bool.false_and, Bool.and_self] <;>
    split_ifs <;> first | rfl | simp_all

/-! ### Counting violations of one type -/

/-- How many violations of type `t` a list holds. -/
def countType (t : String) (l : List Violation) : Nat :=
  l.countP (fun v => v.type == t)

theorem countType_append (t : String) (l1 l2 : List Violation) :
    countType t (l1 ++ l2) = countType t l1 + countType t l2 :=
  List.countP_append _ _ _

theorem countType_assignIdsFrom (t : String) (n : Nat) (l : List Violation) :
    countType t (assignIdsFrom n l) = countType t l :=
  countP_assignIdsFrom (fun v => v.type == t) (fun _ _ => rfl) n l

theorem countType_flatMap_zero {α : Type} (t : String) (f : α → List Violation)
    (l : List α) (hf : ∀ x, countType t (f x) = 0) :
    countType t (l.flatMap f) = 0 := by
  induction l with
  | nil => rfl
  | cons x rest ih =>
    rw [List.flatMap_cons]
    rw [countType_append, hf, ih]

/-- The type every privacy-link-rule count is measured against. -/
def privacyMissingType : String := "Privacy Policy Link Missing"

theorem countPrivacy_cookieViolations (own : String) (now : Int) (c : Cookie) :
    countType privacyMissingType (cookieViolations own now c) = 0 := by
  unfold countType cookieViolations
  simp only [List.countP_append]
  split_ifs <;> rfl

theorem countPrivacy_scriptViolations (own : String) (s : Script) :
    countType privacyMissingType (scriptViolations own s) = 0 := by
  unfold countType scriptViolations
  simp only [List.countP_append]
  split_ifs <;> rfl

theorem countPrivacy_consentViolations (d : Doc) :
    countType privacyMissingType (consentViolations d) = 0 := by
  unfold countType consentViolations
  simp only [List.countP_append]
  split_ifs <;> rfl

theorem countPrivacy_checkboxViolations (d : Doc) :
    countType privacyMissingType (checkboxViolations d) = 0 := by
  unfold checkboxViolations
  refine countType_flatMap_zero _ _ _ (fun e => ?_)
  unfold countType
  dsimp only
  split_ifs <;> rfl

theorem countPrivacy_impliedConsentViolations (d : Doc) :
    countType privacyMissingType (impliedConsentViolations d) = 0 := by
  unfold countType impliedConsentViolations
  split_ifs <;> rfl

theorem countPrivacy_cookiePolicyLinkViolations (d : Doc) :
    countType privacyMissingType (cookiePolicyLinkViolations d) = 0 := by
  unfold countType cookiePolicyLinkViolations
  split_ifs <;> rfl

theorem countPrivacy_doNotSellLinkViolations (d : Doc) :
    countType privacyMissingType (doNotSellLinkViolations d) = 0 := by
  unfold countType doNotSellLinkViolations
  split_ifs <;> rfl

theorem countPrivacy_limitUseLinkViolations (d : Doc) :
    countType privacyMissingType (limitUseLinkViolations d) = 0 := by
  unfold countType limitUseLinkViolations
  split_ifs <;> rfl

theorem countPrivacy_dsarViolations (d : Doc) :
    countType privacyMissingType (dsarViolations d) = 0 := by
  unfold countType dsarViolations
  split_ifs <;> rfl

theorem countPrivacy_formViolations (d : Doc) :
    countType privacyMissingType (formViolations d) = 0 := by
  unfold formViolations
  refine countType_flatMap_zero _ _ _ (fun e => ?_)
  unfold countType
  cases e.action with
  | none => rfl
  | some a =>
    dsimp only
    split_ifs <;> rfl

theorem countPrivacy_sensitiveFieldViolations (d : Doc) :
    countType privacyMissingType (sensitiveFieldViolations d) = 0 := by
  unfold sensitiveFieldViolations
  refine countType_flatMap_zero _ _ _ (fun e => ?_)
  unfold countType
  split_ifs <;> rfl

theorem countPrivacy_mailtoViolations (d : Doc) :
    countType privacyMissingType (mailtoViolations d) = 0 := by
  unfold mailtoViolations
  refine countType_flatMap_zero _ _ _ (fun e => ?_)
  unfold countType
  dsimp only
  split_ifs <;> rfl

theorem countPrivacy_mixedContentViolations (d : Doc) :
    countType privacyMissingType (mixedContentViolations d) = 0 := by
  unfold mixedContentViolations
  refine countType_flatMap_zero _ _ _ (fun e => ?_)
  unfold countType
  cases jsOr e.srcAttr e.href with
  | none => rfl
  | some s =>
    dsimp only
    split_ifs <;> rfl

/-- The anchor patterns of the privacy-link rule. -/
def privacyAnchorPats : List String := ["Privacy Policy", "privacy policy", "Privacy"]

theorem countPrivacy_privacyLinkViolations (d : Doc) :
    countType privacyMissingType (privacyLinkViolations d)
      = if hasAnchorContaining d privacyAnchorPats = true then 0 else 1 := by
  unfold countType privacyLinkViolations privacyAnchorPats
  by_cases h : hasAnchorContaining d ["Privacy Policy", "privacy policy", "Privacy"] = true
  · simp [h, privacyMissingType]
  · simp only [Bool.not_eq_true] at h
    simp [h, privacyMissingType]

/-- The privacy-link count over a whole scan is decided by the anchor
check alone: 0 with a matching anchor, 1 without. -/
theorem countPrivacy_scan (raw : RawScanData) (u : URLParts) (now : Int) :
    countType privacyMissingType (scanViolations raw u now)
      = if hasAnchorContaining raw.html privacyAnchorPats = true then 0 else 1 := by
  unfold scanViolations documentViolations
  simp only [countType_append]
  rw [countType_flatMap_zero _ _ _ (countPrivacy_cookieViolations _ now),
      countType_flatMap_zero _ _ _ (countPrivacy_scriptViolations _),
      countPrivacy_consentViolations, countPrivacy_checkboxViolations,
      countPrivacy_impliedConsentViolations, countPrivacy_privacyLinkViolations,
      countPrivacy_cookiePolicyLinkViolations, countPrivacy_doNotSellLinkViolations,
      countPrivacy_limitUseLinkViolations, countPrivacy_dsarViolations,
      countPrivacy_formViolations, countPrivacy_sensitiveFieldViolations,
      countPrivacy_mailtoViolations]
  have hmix : countType privacyMissingType
      (if u.protocol == "https:" then mixedContentViolations raw.html else []) = 0 := by
    split_ifs
    · exact countPrivacy_mixedContentViolations _
    · rfl
  rw [hmix]
  omega

/-- The score depends only on the multiset of severities. -/
theorem calculateScore_perm {vs ws : List Violation}
    (h : (vs.map Violation.severity).Perm (ws.map Violation.severity)) :
    calculateScore vs = calculateScore ws := by
  rw [calculateScore_eq, calculateScore_eq]
  have hsum : (vs.map (fun v => weights v.severity)).sum
      = (ws.map (fun v => weights v.severity)).sum := by
    have h2 := (h.map weights).sum_eq
    simpa [List.map_map, Function.comp] using h2
  rw [hsum]

/-- With no consent-matching element the banner rule emits its critical
violation. -/
theorem mem_consentViolations_noBanner {d : Doc}
    (hnone : ∀ e ∈ d.elems, consentSelectorMatch e = false) :
    ∃ v ∈ consentViolations d,
      v.type = "No Consent Banner Detected" ∧ v.severity = Severity.Critical := by
  have hnil : consentBannerElems d = [] := by
    unfold consentBannerElems
    exact List.filter_eq_nil_iff.mpr (fun e he => by simp [hnone e he])
  unfold consentViolations
  rw [hnil]
  exact ⟨_, List.mem_cons_self _ _, rfl, rfl⟩

theorem mem_documentViolations_of_mem_consent {d : Doc} {proto : String} {v : Violation}
    (hv : v ∈ consentViolations d) : v ∈ documentViolations d proto := by
  unfold documentViolations
  exact List.mem_append_left _ (List.mem_append_left _ (List.mem_append_left _
    (List.mem_append_left _ (List.mem_append_left _ (List.mem_append_left _
    (List.mem_append_left _ (List.mem_append_left _ (List.mem_append_left _
    (List.mem_append_left _ (List.mem_append_left _ hv))))))))))

/-- The consent-banner flag of a successful scan. -/
theorem res_hasConsentBanner_eq {raw : RawScanData} {url : String} {now : Int}
    {date : String} {res : AnalysisResult}
    (h : mapViolations raw url now date = some res) :
    res.hasConsentBanner = !(consentBannerElems raw.html).isEmpty := by
  obtain ⟨u, hu⟩ := parseURL_of_mapViolations h
  rw [mapViolations_eq_some hu] at h
  obtain rfl := Option.some.inj h
  rfl

/-- The script evidence of a successful scan. -/
theorem res_scripts_eq {raw : RawScanData} {url : String} {now : Int}
    {date : String} {res : AnalysisResult} {u : URLParts}
    (h : mapViolations raw url now date = some res) (hu : parseURL url = some u) :
    res.scripts = raw.scripts.map (mapScript (replaceFirst u.hostname "www." "")) := by
  rw [mapViolations_eq_some hu] at h
  obtain rfl := Option.some.inj h
  rfl

/-- An anchor whose text contains one of the patterns makes the selector
match. -/
theorem hasAnchorContaining_true {d : Doc} {pats : List String} {pat : String}
    (hp : pat ∈ pats) {e : DomElem} (he : e ∈ d.elems) (ht : e.tag = "a")
    (hc : strContains e.text pat = true) :
    hasAnchorContaining d pats = true := by
  unfold hasAnchorContaining
  rw [List.any_eq_true]
  refine ⟨pat, hp, ?_⟩
  have hmem : e ∈ anchorsContaining d pat :=
    List.mem_filter.mpr ⟨he, by simp [ht, hc]⟩
  have hne := List.ne_nil_of_mem hmem
  simp [List.isEmpty_iff, hne]

/-- If no anchor's text contains any pattern, the selector finds nothing. -/
theorem hasAnchorContaining_false {d : Doc} {pats : List String}
    (hall : ∀ e ∈ d.elems, e.tag = "a" → ∀ pat ∈ pats, strContains e.text pat = false) :
    hasAnchorContaining d pats = false := by
  unfold hasAnchorContaining
  rw [List.any_eq_false]
  intro pat hp
  have hnil : anchorsContaining d pat = [] := by
    unfold anchorsContaining
    refine List.filter_eq_nil_iff.mpr (fun e he => ?_)
    by_cases htag : e.tag = "a"
    · simp [hall e he htag pat hp]
    · simp [htag]
  simp [hnil]

/-! ### Further fixtures -/

/-- Fallback record for unpacking `Option AnalysisResult` fixtures; never
reached, since every fixture's site URL parses. -/
def emptyResult : AnalysisResult :=
  { url := "", scanDate := "", cookies := [], scripts := [], violations := [],
    hasConsentBanner := false, score := 0 }

/-- A scan of nothing at all: no cookies, no scripts, an empty document. -/
def emptyRaw : RawScanData := { cookies := [], scripts := [], html := emptyDoc }

/-- Result of scanning `emptyRaw`. -/
def emptyScanRes : AnalysisResult :=
  (mapViolations emptyRaw "https://example.com" 0 "d").getD emptyResult

/-- The example scenario's cookie as a browser would typically send it,
with `httpOnly` false (this is the shape the spec's arithmetic ignores). -/
def cex2Cookie : Cookie := { trackerCookie with httpOnly := false }

/-- The example scenario over a bare document: same cookie, same script,
but nothing suppressing the document rules. -/
def cex2Raw : RawScanData :=
  { cookies := [cex2Cookie], scripts := [gaScript], html := emptyDoc }

/-! ## Claim theorems -/

/-- C1: the score of every `AnalysisResult` produced by `mapViolations`
equals `max 0 (100 - Σ severity weights)` with weights Low=2, Medium=5,
High=10, Critical=20 (`weights`); consequently it lies in `[0, 100]`; and
it depends only on the multiset of violation severities: any violation
list carrying a permutation of the result's severities scores the same. -/
theorem score_is_clamped_weighted_sum (raw : RawScanData) (url : String) (now : Int)
    (date : String) (res : AnalysisResult)
    (h : mapViolations raw url now date = some res) :
    res.score = max 0 (100 - (res.violations.map (fun v => weights v.severity)).sum) ∧
    0 ≤ res.score ∧ res.score ≤ 100 ∧
    ∀ vs : List Violation,
      (res.violations.map Violation.severity).Perm (vs.map Violation.severity) →
      calculateScore vs = res.score := by
  have hs := res_score_eq h
  refine ⟨?_, ?_, ?_, ?_⟩
  · rw [hs, calculateScore_eq]
  · rw [hs]; exact calculateScore_nonneg _
  · rw [hs]; exact calculateScore_le_100 _
  · intro vs hperm
    rw [hs]
    exact calculateScore_perm hperm.symm

/-- Witness for C1 at the example scenario: the hypothesis holds by
computation and the scenario's score is inside the bounds. -/
theorem score_is_clamped_weighted_sum_witness :
    mapViolations scenRaw "https://www.example.com" 0 "2024-01-01T00:00:00.000Z"
        = some scenRes ∧
    0 ≤ scenRes.score ∧ scenRes.score ≤ 100 :=
  have h := score_is_clamped_weighted_sum scenRaw "https://www.example.com" 0
    "2024-01-01T00:00:00.000Z" scenRes (by rfl)
  ⟨by rfl, h.2.1, h.2.2.1⟩

/-- C6: within one call of `mapViolations` the violation identifiers are
exactly `violation-0, violation-1, …` in push order — all cookie rules in
cookie order, then script rules in script order, then the document rules
(`scanViolations` lists them in that order) — hence pairwise distinct; the
counter restarts at 0 for each call, and the function is deterministic, so
a second call on the same input reproduces the same typed, numbered
sequence. -/
theorem violation_ids_positional_unique (raw : RawScanData) (url : String)
    (now : Int) (date : String) (res : AnalysisResult)
    (h : mapViolations raw url now date = some res) :
    res.violations.map Violation.id
        = (List.range res.violations.length).map generateId ∧
    (res.violations.map Violation.id).Nodup ∧
    (∀ u, parseURL url = some u →
      res.violations = assignIdsFrom 0 (scanViolations raw u now)) ∧
    ∀ res' : AnalysisResult, mapViolations raw url now date = some res' → res' = res := by
  obtain ⟨u, hu⟩ := parseURL_of_mapViolations h
  have hv := res_violations_eq h hu
  refine ⟨?_, ?_, ?_, ?_⟩
  · rw [hv, assignIdsFrom_map_id, assignIdsFrom_length, List.range_eq_range']
  · rw [hv]; exact nodup_assignIdsFrom_ids 0 _
  · intro u' hu'
    rw [hu] at hu'
    obtain rfl := Option.some.inj hu'
    exact hv
  · intro res' h'
    rw [h] at h'
    exact (Option.some.inj h').symm

/-- Witness for C6 at the example scenario. -/
theorem violation_ids_positional_unique_witness :
    mapViolations scenRaw "https://www.example.com" 0 "2024-01-01T00:00:00.000Z"
        = some scenRes ∧
    (scenRes.violations.map Violation.id).Nodup :=
  have h := violation_ids_positional_unique scenRaw "https://www.example.com" 0
    "2024-01-01T00:00:00.000Z" scenRes (by rfl)
  ⟨by rfl, h.2.1⟩

/-- C3: every cookie of the input whose domain, after stripping a leading
dot (`cookieDomainOf`), does not end in the site's base domain yields a
`Third-Party Cookie Set` violation of severity High in the result, naming
that cookie — whatever its `secure`, `httpOnly`, `sameSite` or `expires`
values. -/
theorem third_party_cookie_always_flagged (raw : RawScanData) (url : String)
    (now : Int) (date : String) (res : AnalysisResult) (u : URLParts) (c : Cookie)
    (h : mapViolations raw url now date = some res) (hu : parseURL url = some u)
    (hc : c ∈ raw.cookies)
    (hdom : strEndsWith (cookieDomainOf c) (replaceFirst u.hostname "www." "") = false) :
    ∃ v ∈ res.violations, v.type = "Third-Party Cookie Set" ∧
      v.severity = Severity.High ∧ v.element = c.name ++ " (" ++ c.domain ++ ")" := by
  obtain ⟨v, hvmem, ht, hsev, hel⟩ :=
    mem_cookieViolations_thirdParty (replaceFirst u.hostname "www." "") now c hdom
  obtain ⟨w, hw, i, rfl⟩ := mem_res_violations_of_mem_scan h hu
    (mem_scan_of_mem_cookieViolations hc hvmem)
  exact ⟨_, hw, ht, hsev, hel⟩

/-- Witness for C3: the `tracker.example` cookie of the example scenario. -/
theorem third_party_cookie_always_flagged_witness :
    trackerCookie ∈ scenRaw.cookies ∧
    strEndsWith (cookieDomainOf trackerCookie)
        (replaceFirst (URLParts.mk "https:" "www.example.com").hostname "www." "") = false ∧
    ∃ v ∈ scenRes.violations, v.type = "Third-Party Cookie Set" ∧
      v.severity = Severity.High ∧
      v.element = trackerCookie.name ++ " (" ++ trackerCookie.domain ++ ")" :=
  ⟨by decide, by decide,
    third_party_cookie_always_flagged scenRaw "https://www.example.com" 0
      "2024-01-01T00:00:00.000Z" scenRes (URLParts.mk "https:" "www.example.com")
      trackerCookie (by rfl) (by rfl) (by decide) (by decide)⟩

/-- C4: every cookie with `secure = false` yields an
`Insecure Cookie Transmission` violation (High) naming it; if additionally
`sameSite = "None"`, an `Insecure SameSite=None Cookie` violation (High)
is emitted as well. -/
theorem insecure_cookie_rules (raw : RawScanData) (url : String)
    (now : Int) (date : String) (res : AnalysisResult) (u : URLParts) (c : Cookie)
    (h : mapViolations raw url now date = some res) (hu : parseURL url = some u)
    (hc : c ∈ raw.cookies) (hsec : c.secure = false) :
    (∃ v ∈ res.violations, v.type = "Insecure Cookie Transmission" ∧
      v.severity = Severity.High ∧ v.element = c.name) ∧
    (c.sameSite = "None" →
      ∃ v ∈ res.violations, v.type = "Insecure SameSite=None Cookie" ∧
        v.severity = Severity.High ∧ v.element = c.name) := by
  constructor
  · obtain ⟨v, hvmem, ht, hsev, hel⟩ :=
      mem_cookieViolations_insecure (replaceFirst u.hostname "www." "") now c hsec
    obtain ⟨w, hw, i, rfl⟩ := mem_res_violations_of_mem_scan h hu
      (mem_scan_of_mem_cookieViolations hc hvmem)
    exact ⟨_, hw, ht, hsev, hel⟩
  · intro hss
    obtain ⟨v, hvmem, ht, hsev, hel⟩ :=
      mem_cookieViolations_sameSiteNone (replaceFirst u.hostname "www." "") now c hsec hss
    obtain ⟨w, hw, i, rfl⟩ := mem_res_violations_of_mem_scan h hu
      (mem_scan_of_mem_cookieViolations hc hvmem)
    exact ⟨_, hw, ht, hsev, hel⟩

/-- A `SameSite=None` cookie without the Secure flag, for the C4 witness. -/
def noneCookie : Cookie :=
  { name := "widget", value := "w", domain := "tracker.example", expires := -1,
    httpOnly := true, secure := false, sameSite := "None" }

/-- Scan input holding `noneCookie` only. -/
def c4Raw : RawScanData := { cookies := [noneCookie], scripts := [], html := scenDoc }

/-- Result of scanning `c4Raw`. -/
def c4Res : AnalysisResult :=
  (mapViolations c4Raw "https://www.example.com" 0 "d").getD emptyResult

/-- Witness for C4 at `noneCookie`: both violations appear. -/
theorem insecure_cookie_rules_witness :
    noneCookie.secure = false ∧ noneCookie.sameSite = "None" ∧
    (∃ v ∈ c4Res.violations, v.type = "Insecure Cookie Transmission" ∧
      v.severity = Severity.High ∧ v.element = noneCookie.name) ∧
    (∃ v ∈ c4Res.violations, v.type = "Insecure SameSite=None Cookie" ∧
      v.severity = Severity.High ∧ v.element = noneCookie.name) :=
  have h := insecure_cookie_rules c4Raw "https://www.example.com" 0 "d" c4Res
    (URLParts.mk "https:" "www.example.com") noneCookie (by rfl) (by rfl)
    (by decide) (by rfl)
  ⟨rfl, rfl, h.1, h.2 rfl⟩

/-- C5: with zero cookies, zero scripts and a document in which no element
matches the consent selector (`consentSelectorMatch`: id containing
`consent`, class containing `cookie`, aria-label containing `cookie`, or
data-testid containing `consent`), the result reports
`hasConsentBanner = false` and a Critical `No Consent Banner Detected`
violation. -/
theorem no_consent_banner_detected (raw : RawScanData) (url : String)
    (now : Int) (date : String) (res : AnalysisResult)
    (h : mapViolations raw url now date = some res)
    (hcook : raw.cookies = []) (hscr : raw.scripts = [])
    (hnone : ∀ e ∈ raw.html.elems, consentSelectorMatch e = false) :
    res.hasConsentBanner = false ∧
    ∃ v ∈ res.violations, v.type = "No Consent Banner Detected" ∧
      v.severity = Severity.Critical := by
  obtain ⟨u, hu⟩ := parseURL_of_mapViolations h
  have hnil : consentBannerElems raw.html = [] := by
    unfold consentBannerElems
    exact List.filter_eq_nil_iff.mpr (fun e he => by simp [hnone e he])
  constructor
  · rw [res_hasConsentBanner_eq h, hnil]
    rfl
  · obtain ⟨v, hvmem, ht, hsev⟩ := mem_consentViolations_noBanner hnone
    obtain ⟨w, hw, i, rfl⟩ := mem_res_violations_of_mem_scan h hu
      (mem_scan_of_mem_documentViolations (mem_documentViolations_of_mem_consent hvmem))
    exact ⟨_, hw, ht, hsev⟩

/-- Witness for C5 at the empty scan. -/
theorem no_consent_banner_detected_witness :
    mapViolations emptyRaw "https://example.com" 0 "d" = some emptyScanRes ∧
    emptyScanRes.hasConsentBanner = false ∧
    ∃ v ∈ emptyScanRes.violations, v.type = "No Consent Banner Detected" ∧
      v.severity = Severity.Critical :=
  have h := no_consent_banner_detected emptyRaw "https://example.com" 0 "d"
    emptyScanRes (by rfl) rfl rfl (by decide)
  ⟨by rfl, h.1, h.2⟩

/-- C9: a cookie with `httpOnly = false` whose name starts with neither
`__utm` nor `_ga` yields a Medium `Cookie Accessible to Client-Side
Scripts` violation naming it; a cookie whose name starts with one of those
prefixes is never flagged by this rule, whatever its `httpOnly` value. -/
theorem httpOnly_allowlist_rule (raw : RawScanData) (url : String)
    (now : Int) (date : String) (res : AnalysisResult) (u : URLParts) (c : Cookie)
    (h : mapViolations raw url now date = some res) (hu : parseURL url = some u)
    (hc : c ∈ raw.cookies) :
    (c.httpOnly = false → strStartsWith c.name "__utm" = false →
      strStartsWith c.name "_ga" = false →
      ∃ v ∈ res.violations, v.type = "Cookie Accessible to Client-Side Scripts" ∧
        v.severity = Severity.Medium ∧ v.element = c.name) ∧
    ((strStartsWith c.name "__utm" = true ∨ strStartsWith c.name "_ga" = true) →
      ∀ v ∈ cookieViolations (replaceFirst u.hostname "www." "") now c,
        v.type ≠ "Cookie Accessible to Client-Side Scripts") := by
  constructor
  · intro hhttp hutm hga
    obtain ⟨v, hvmem, ht, hsev, hel⟩ := mem_cookieViolations_httpOnly
      (replaceFirst u.hostname "www." "") now c hhttp hutm hga
    obtain ⟨w, hw, i, rfl⟩ := mem_res_violations_of_mem_scan h hu
      (mem_scan_of_mem_cookieViolations hc hvmem)
    exact ⟨_, hw, ht, hsev, hel⟩
  · intro hname v hv
    have hall := cookieViolations_exempt_httpOnly (replaceFirst u.hostname "www." "") now hname
    rw [List.all_eq_true] at hall
    simpa using hall v hv

/-- An analytics cookie (allow-listed name prefix) readable by scripts. -/
def utmCookie : Cookie :=
  { name := "__utmz", value := "1", domain := "www.example.com", expires := -1,
    httpOnly := false, secure := true, sameSite := "Lax" }

/-- Scan input with one flaggable and one exempt cookie. -/
def c9Raw : RawScanData :=
  { cookies := [cex2Cookie, utmCookie], scripts := [], html := scenDoc }

/-- Result of scanning `c9Raw`. -/
def c9Res : AnalysisResult :=
  (mapViolations c9Raw "https://www.example.com" 0 "d").getD emptyResult

/-- Witness for C9: the `track_id` cookie is flagged, `__utmz` is exempt. -/
theorem httpOnly_allowlist_rule_witness :
    (∃ v ∈ c9Res.violations, v.type = "Cookie Accessible to Client-Side Scripts" ∧
      v.severity = Severity.Medium ∧ v.element = cex2Cookie.name) ∧
    (∀ v ∈ cookieViolations "example.com" 0 utmCookie,
      v.type ≠ "Cookie Accessible to Client-Side Scripts") :=
  have h1 := httpOnly_allowlist_rule c9Raw "https://www.example.com" 0 "d" c9Res
    (URLParts.mk "https:" "www.example.com") cex2Cookie (by rfl) (by rfl)
    (by decide)
  have h2 := httpOnly_allowlist_rule c9Raw "https://www.example.com" 0 "d" c9Res
    (URLParts.mk "https:" "www.example.com") utmCookie (by rfl) (by rfl)
    (by decide)
  ⟨h1.1 rfl (by decide) (by decide), h2.2 (Or.inl (by decide))⟩

/-- A cookie of a different registrable owner that the raw suffix test
mistakes for first-party when the site's base domain is `example.com`. -/
def evilCookie : Cookie :=
  { name := "spy", value := "s", domain := "evilexample.com", expires := -1,
    httpOnly := true, secure := true, sameSite := "Lax" }

/-- C10: third-party classification is a plain string-suffix test against
the site hostname with its first `www.` occurrence removed
(`replaceFirst u.hostname "www." ""`): a cookie whose dot-stripped domain
ends in that string — including `evilexample.com` against base domain
`example.com` — is never flagged as a third-party cookie, and a script
whose hostname ends in that string is classified `isThirdParty = false` in
the result's script evidence. -/
theorem suffix_based_third_party_classification (raw : RawScanData) (url : String)
    (now : Int) (date : String) (res : AnalysisResult) (u : URLParts)
    (h : mapViolations raw url now date = some res) (hu : parseURL url = some u) :
    (∀ c ∈ raw.cookies,
      strEndsWith (cookieDomainOf c) (replaceFirst u.hostname "www." "") = true →
      ∀ v ∈ cookieViolations (replaceFirst u.hostname "www." "") now c,
        v.type ≠ "Third-Party Cookie Set") ∧
    (∀ s ∈ raw.scripts, ∀ su, parseURL s.src = some su →
      strEndsWith su.hostname (replaceFirst u.hostname "www." "") = true →
      ScriptInfo.mk s.src false ∈ res.scripts) ∧
    replaceFirst "www.example.com" "www." "" = "example.com" ∧
    strEndsWith (cookieDomainOf evilCookie) "example.com" = true ∧
    (∀ v ∈ cookieViolations "example.com" now evilCookie,
      v.type ≠ "Third-Party Cookie Set") ∧
    isThirdParty "https://evilexample.com/t.js" "example.com" = false := by
  refine ⟨?_, ?_, by decide, by decide, ?_, by decide⟩
  · intro c hc hdom v hv
    have hall := cookieViolations_suffix_no_thirdParty (replaceFirst u.hostname "www." "") now hdom
    rw [List.all_eq_true] at hall
    simpa using hall v hv
  · intro s hs su hsu hsuf
    have hm : mapScript (replaceFirst u.hostname "www." "") s = ScriptInfo.mk s.src false := by
      unfold mapScript
      rw [isThirdParty_of_suffix hsu hsuf]
    rw [res_scripts_eq h hu]
    exact hm ▸ List.mem_map_of_mem _ hs
  · intro v hv
    have hall := cookieViolations_suffix_no_thirdParty "example.com" now (c := evilCookie) (by decide)
    rw [List.all_eq_true] at hall
    simpa using hall v hv

/-- A scan input carrying the `evilexample.com` cookie and a script hosted
there, against site `https://www.example.com`. -/
def evilScript : Script := { src := "https://evilexample.com/t.js" }

/-- Scan input for the C10 witness. -/
def evilRaw : RawScanData :=
  { cookies := [evilCookie], scripts := [evilScript], html := scenDoc }

/-- Result of scanning `evilRaw`. -/
def evilRes : AnalysisResult :=
  (mapViolations evilRaw "https://www.example.com" 0 "d").getD emptyResult

/-- Witness for C10: the `evilexample.com` script is recorded as
first-party in the result. -/
theorem suffix_based_third_party_classification_witness :
    ScriptInfo.mk evilScript.src false ∈ evilRes.scripts ∧
    (∀ v ∈ cookieViolations "example.com" 0 evilCookie,
      v.type ≠ "Third-Party Cookie Set") :=
  have h := suffix_based_third_party_classification evilRaw "https://www.example.com"
    0 "d" evilRes (URLParts.mk "https:" "www.example.com") (by rfl) (by rfl)
  ⟨h.2.1 evilScript (by decide) (URLParts.mk "https:" "evilexample.com") (by rfl)
    (by decide), h.2.2.2.2.1⟩

/-- A document whose only anchor says `Privacy Center`: no anchor text
contains `Privacy Policy`, yet the catch-all `Privacy` pattern matches. -/
def privacyCenterDoc : Doc := { bodyText := "", elems := [anchor "Privacy Center"] }

/-- Scan input for the C7 counterexample. -/
def privacyCexRaw : RawScanData :=
  { cookies := [], scripts := [], html := privacyCenterDoc }

/-- Counterexample to C7 as stated: this document contains no anchor (in a
footer or anywhere) whose text contains `Privacy Policy`, so the claim
demands the `Privacy Policy Link Missing` violation exactly once — but the
selector also matches on the bare substring `Privacy`, so the scan emits
it zero times. -/
theorem privacy_link_rule_counterexample :
    (∀ e ∈ privacyCenterDoc.elems, strContains e.text "Privacy Policy" = false) ∧
    (mapViolations privacyCexRaw "https://example.com" 0 "d").map
        (fun r => countType privacyMissingType r.violations) = some 0 := by
  constructor
  · decide
  · decide

/-- C7 as amended: an anchor whose text contains `Privacy Policy`
suppresses the `Privacy Policy Link Missing` violation entirely; the
violation is emitted exactly once precisely when no anchor's text contains
any of the three patterns `Privacy Policy`, `privacy policy`, `Privacy`
(`privacyAnchorPats`) — a bare `Privacy` anchor already suppresses it. -/
theorem privacy_link_rule_amended (raw : RawScanData) (url : String)
    (now : Int) (date : String) (res : AnalysisResult) (u : URLParts)
    (h : mapViolations raw url now date = some res) (hu : parseURL url = some u) :
    ((∃ e ∈ raw.html.elems, e.tag = "a" ∧ strContains e.text "Privacy Policy" = true) →
      countType privacyMissingType res.violations = 0) ∧
    ((∀ e ∈ raw.html.elems, e.tag = "a" →
        ∀ pat ∈ privacyAnchorPats, strContains e.text pat = false) →
      countType privacyMissingType res.violations = 1) := by
  have hres : countType privacyMissingType res.violations
      = countType privacyMissingType (scanViolations raw u now) := by
    rw [res_violations_eq h hu, countType_assignIdsFrom]
  have hcount := countPrivacy_scan raw u now
  constructor
  · rintro ⟨e, he, ht, hc⟩
    have htrue : hasAnchorContaining raw.html privacyAnchorPats = true :=
      hasAnchorContaining_true (List.mem_cons_self _ _) he ht hc
    rw [hres, hcount, if_pos htrue]
  · intro hall
    have hfalse : hasAnchorContaining raw.html privacyAnchorPats = false :=
      hasAnchorContaining_false hall
    rw [hres, hcount, if_neg (by simp [hfalse])]

/-- Witness for C7 (amended), both directions: the example scenario's
document has a `Privacy Policy` anchor and scores zero occurrences; the
empty document has none of the patterns and scores exactly one. -/
theorem privacy_link_rule_amended_witness :
    countType privacyMissingType scenRes.violations = 0 ∧
    countType privacyMissingType emptyScanRes.violations = 1 :=
  have h1 := privacy_link_rule_amended scenRaw "https://www.example.com" 0
    "2024-01-01T00:00:00.000Z" scenRes (URLParts.mk "https:" "www.example.com")
    (by rfl) (by rfl)
  have h2 := privacy_link_rule_amended emptyRaw "https://example.com" 0 "d"
    emptyScanRes (URLParts.mk "https:" "example.com") (by rfl) (by rfl)
  ⟨h1.1 ⟨anchor "Privacy Policy", by decide, by decide, by decide⟩,
   h2.2 (by decide)⟩

/-- A script reference without a scheme: `new URL` throws on it, while the
substring rules still see `fonts.googleapis.com` in it. -/
def fontsScript : Script := { src := "fonts.googleapis.com/css?family=Roboto" }

/-- Scan input for the C8 counterexample. -/
def fontsRaw : RawScanData :=
  { cookies := [], scripts := [fontsScript], html := scenDoc }

/-- Counterexample to C8 as stated: `fonts.googleapis.com/css?…` does not
parse as an absolute URL, yet the script contributes a
`Third-Party Fonts Loaded` violation — the item yields one violation, not
zero, and it lands in the scan result. -/
theorem unparseable_script_counterexample :
    parseURL fontsScript.src = none ∧
    (scriptViolations "example.com" fontsScript).map Violation.type
        = ["Third-Party Fonts Loaded"] ∧
    (mapViolations fontsRaw "https://example.com" 0 "d").map
        (fun r => countType "Third-Party Fonts Loaded" r.violations) = some 1 := by
  refine ⟨rfl, by decide, by decide⟩

/-- C8 as amended: a script whose src does not parse as an absolute URL
never aborts the scan (the result is still produced), is classified
first-party, and is skipped by the URL-dependent tracker rule — it can
contribute only the substring-keyed `Third-Party Fonts Loaded` or
`Google ReCAPTCHA Implementation` violations, and contributes none at all
when its src contains neither substring. -/
theorem unparseable_script_contained (raw : RawScanData) (url : String)
    (now : Int) (date : String) (u : URLParts) (s : Script)
    (hu : parseURL url = some u) (hs : s ∈ raw.scripts)
    (hp : parseURL s.src = none) :
    (∃ res, mapViolations raw url now date = some res) ∧
    isThirdParty s.src (replaceFirst u.hostname "www." "") = false ∧
    (∀ v ∈ scriptViolations (replaceFirst u.hostname "www." "") s,
      v.type = "Third-Party Fonts Loaded" ∨
      v.type = "Google ReCAPTCHA Implementation") ∧
    (strContains s.src "fonts.googleapis.com" = false →
      strContains s.src "google.com/recaptcha" = false →
      scriptViolations (replaceFirst u.hostname "www." "") s = []) := by
  refine ⟨⟨_, mapViolations_eq_some hu⟩, isThirdParty_of_unparseable hp, ?_, ?_⟩
  · intro v hv
    have hall := scriptViolations_unparseable_types (replaceFirst u.hostname "www." "") hp
    rw [List.all_eq_true] at hall
    simpa using hall v hv
  · intro hf hr
    exact scriptViolations_unparseable_nil hp hf hr

/-- A script src that is no URL and contains neither tracked substring. -/
def relativeScript : Script := { src := "/static/app.js" }

/-- A src on which `new URL` throws (a space is a forbidden host code
point) although it contains the tracker-catalog substring `ga.js`: the
`catch` branch makes the tracker rule skip it. -/
def evilHostScript : Script := { src := "https://evil host/ga.js" }

/-- Scan input holding three throwing scripts. -/
def c8Raw : RawScanData :=
  { cookies := [],
    scripts := [fontsScript, relativeScript, evilHostScript], html := scenDoc }

/-- Witness for C8 (amended) at concrete srcs on both sides of the throw
boundary: the relative path and the forbidden-host src throw and
contribute nothing — although the latter contains the catalog substring
`ga.js` — while a `data:` src parses (hostname `""`), is classified
third-party, and does fire the tracker rule, so it lies outside the
claim's scope as outside the `catch` branch. -/
theorem unparseable_script_contained_witness :
    parseURL fontsScript.src = none ∧ parseURL relativeScript.src = none ∧
    parseURL evilHostScript.src = none ∧
    scriptViolations "example.com" relativeScript = [] ∧
    scriptViolations "example.com" evilHostScript = [] ∧
    parseURL "data:text/javascript,analytics.js" = some (URLParts.mk "data:" "") ∧
    isThirdParty "data:text/javascript,analytics.js" "example.com" = true ∧
    (scriptViolations "example.com" (Script.mk "data:text/javascript,analytics.js")).map
        Violation.type = ["Third-Party Tracking Script Detected"] :=
  have h2 := unparseable_script_contained c8Raw "https://example.com" 0 "d"
    (URLParts.mk "https:" "example.com") relativeScript (by rfl)
    (by decide) (by rfl)
  have h3 := unparseable_script_contained c8Raw "https://example.com" 0 "d"
    (URLParts.mk "https:" "example.com") evilHostScript (by rfl)
    (by decide) (by rfl)
  ⟨by rfl, by rfl, by rfl, h2.2.2.2 (by decide) (by decide),
   h3.2.2.2 (by decide) (by decide), by rfl, by rfl, by decide⟩

/-- Counterexample to C2 as stated: an input matching the scenario's
description — no consent-matching element, the `tracker.example` cookie
with `secure = false`, the Google Analytics script — on which the score is
0, not 40: over a bare document the cookie's missing HttpOnly flag and the
five footer-link rules fire as well, so the four named violations are not
the only deductions. -/
theorem example_scenario_score_counterexample :
    (∀ e ∈ cex2Raw.html.elems, consentSelectorMatch e = false) ∧
    cex2Cookie.domain = "tracker.example" ∧ cex2Cookie.secure = false ∧
    gaScript.src = "https://www.google-analytics.com/analytics.js" ∧
    (mapViolations cex2Raw "https://www.example.com" 0 "d").map
        AnalysisResult.score = some 0 := by
  refine ⟨by decide, rfl, rfl, rfl, by decide⟩

/-- C2 as amended: on the scenario input completed so that no further rule
fires (cookie HttpOnly with `SameSite=Lax` and session expiry, document
carrying all the footer links the document rules require), the result is
exactly the four expected violations — `Third-Party Cookie Set` (High),
`Insecure Cookie Transmission` (High), `Third-Party Tracking Script
Detected` (Critical), `No Consent Banner Detected` (Critical) — and the
score is exactly `100 - 10 - 10 - 20 - 20 = 40`; inputs with further
firing rules score lower. -/
theorem example_scenario_exact_output :
    mapViolations scenRaw "https://www.example.com" 0 "2024-01-01T00:00:00.000Z"
        = some scenRes ∧
    scenRes.hasConsentBanner = false ∧
    scenRes.violations.map Violation.type
        = ["Third-Party Cookie Set", "Insecure Cookie Transmission",
           "Third-Party Tracking Script Detected", "No Consent Banner Detected"] ∧
    scenRes.violations.map Violation.severity
        = [Severity.High, Severity.High, Severity.Critical, Severity.Critical] ∧
    scenRes.score = 40 := by
  refine ⟨by rfl, by decide, by decide, by decide, by decide⟩

end WCT
